import Mathlib

/-!
Verification of the session-lifecycle core of
`src/extensions/applicationinsights-properties-js/src/Context/Session.ts`
(classes `Session` and `_SessionManager`).

The TypeScript code is shallowly embedded as pure Lean functions.
Mutable instance state (`automaticSession`, `cookieUpdatedTimestamp`) is
threaded explicitly as an `SMState` value; the injected capabilities
(cookie backend, durable storage backend, clock, id generator, logger)
become explicit inputs, and the writes/logs they receive are collected in
a `List Effect` output.  JavaScript numbers that can be `NaN` or
`undefined` are represented as `Option Int` (`none` = NaN/undefined; the
sole operations the source performs on them are total on this domain and
are embedded by the `js*` helpers below, each annotated with the
ECMAScript behaviour it mirrors).
-/

namespace AISession

/-! ### JavaScript primitive semantics used by the source -/

/-- Digit characters of `n`, most significant first, written with
structural recursion on a fuel bound (`fuel > n` suffices, since
`n / 10 < n` for `n ≥ 10`). -/
def natCharsAux : Nat → Nat → List Char
  | 0, _ => []
  | fuel + 1, n =>
      if n < 10 then [Char.ofNat (48 + n)]
      else natCharsAux fuel (n / 10) ++ [Char.ofNat (48 + n % 10)]

/-- Digit characters produced by JavaScript number-to-string conversion
(`String(n)` / `Array.prototype.join` on an integer-valued number):
the decimal digits of `n`, most significant first. -/
def natChars (n : Nat) : List Char :=
  natCharsAux (n + 1) n

/-- JavaScript rendering of an integer-valued number as a string
(decimal, `-` sign for negatives). -/
def renderInt (n : Int) : List Char :=
  if n < 0 then '-' :: natChars n.natAbs else natChars n.natAbs

/-- Value of a digit string, most significant digit first. -/
def parseNatChars (l : List Char) : Nat :=
  l.foldl (fun acc c => acc * 10 + (c.toNat - 48)) 0

/-- ECMAScript `ToNumber` applied to a string (the unary `+` the source
uses on `params[1]` / `params[2]`), restricted to the forms that matter
here: the empty string is `0`, an optionally-signed decimal-integer
string is its value, and every other string — in particular every
non-numeric payload field — is `NaN` (`none`).  `ToNumber` never throws.
(Fractional / hex / exponent literals, which cannot occur in this
module's wire format, are conflated with NaN.) -/
def jsToNumber (s : String) : Option Int :=
  match s.data with
  | [] => some 0
  | c :: rest =>
      if c = '-' then
        if rest ≠ [] ∧ rest.all Char.isDigit then some (-(parseNatChars rest : Int)) else none
      else if c = '+' then
        if rest ≠ [] ∧ rest.all Char.isDigit then some (parseNatChars rest : Int) else none
      else if (c :: rest).all Char.isDigit then some (parseNatChars (c :: rest) : Int)
      else none

/-- ECMAScript `+new Date(t)` for a number `t` (the source's
re-extraction of the numeric value): `TimeClip` keeps `t` when
`|t| ≤ 8.64e15` and yields `NaN` otherwise; `new Date(NaN)` is an
Invalid Date whose numeric value is `NaN`.  Never throws. -/
def jsDateValue : Option Int → Option Int
  | none => none
  | some v => if v.natAbs ≤ 8640000000000000 then some v else none

/-- The source's normalization `x = x > 0 ? x : 0` where `x` may be
`NaN`: `NaN > 0` is `false`, so `NaN` also normalizes to `0`. -/
def normalizePositive : Option Int → Int
  | none => 0
  | some x => if x > 0 then x else 0

/-- JavaScript truthiness of an optional string (`undefined` and `""`
are falsy). -/
def isTruthyStr : Option String → Bool
  | none => false
  | some s => s ≠ ""

/-- JavaScript falsiness of an optional number (`undefined` and `0` are
falsy) — the `!this.cookieUpdatedTimestamp` test. -/
def jsFalsyNum : Option Int → Bool
  | none => true
  | some n => n == 0

/-- The source's expiry test `now - date > limit` where `date` may be
`undefined`: `now - undefined` is `NaN` and `NaN > limit` is `false`. -/
def jsExpiredCheck (now : Int) (date : Option Int) (limit : Int) : Bool :=
  match date with
  | none => false
  | some v => now - v > limit

/-- `Array.prototype.join('|')`: `undefined` elements render as the
empty string, numbers render in decimal. -/
def renderNumField : Option Int → List Char
  | none => []
  | some n => renderInt n

def renderIdField : Option String → List Char
  | none => []
  | some s => s.data

/-- `[a, b, c].join('|')` on the id / date / date triple. -/
def joinPipe (fields : List (List Char)) : String :=
  String.mk (List.intercalate ['|'] fields)

/-- `String.prototype.split('|')` (non-empty single-character
separator). -/
def jsSplitPipe (s : String) : List String :=
  (s.data.splitOn '|').map String.mk

/-! ### Data model (`Session`, `ISessionConfig`, manager state) -/

/-- The `Session` record.  All three fields start `undefined` (`none`). -/
structure Session where
  id : Option String
  acquisitionDate : Option Int
  renewalDate : Option Int
deriving Repr, DecidableEq

def Session.empty : Session := ⟨none, none, none⟩

/-- `ISessionConfig` after the constructor's defaulting: the two
duration accessors are total (defaulted to the spans below when absent),
`cookieDomain` and `namePrefix` stay optional. -/
structure SessionConfig where
  sessionExpirationMs : Int
  sessionRenewalMs : Int
  cookieDomain : Option String
  namePrefix : Option String
deriving Repr, DecidableEq

def acquisitionSpan : Int := 86400000
def renewalSpan : Int := 1800000
def cookieUpdateInterval : Int := 60000
def cookieNameConst : String := "ai_session"

/-- `_storageNamePrefix()`: `cookieNameConst + namePrefix()` when the
prefix is configured and truthy, else `cookieNameConst`. -/
def storageNamePrefix (cfg : SessionConfig) : String :=
  match cfg.namePrefix with
  | some p => if p ≠ "" then cookieNameConst ++ p else cookieNameConst
  | none => cookieNameConst

/-- Observable calls the manager makes on its injected capabilities.
A cookie write carries the joined triple, the `expires=` timestamp
passed to `cookieExpiry.setTime` (rendered by `toUTCString` in the
source; `none` for an Invalid Date), and the optional domain. -/
inductive Effect where
  | cookieWrite (key : String) (value : String) (expires : Option Int) (domain : Option String)
  | storageWrite (key : String) (value : String)
  | logCritical (msg : String)
  | logWarning (msg : String)
deriving Repr, DecidableEq

def Effect.isCookieWrite : Effect → Bool
  | .cookieWrite _ _ _ _ => true
  | _ => false

def Effect.isCritical : Effect → Bool
  | .logCritical _ => true
  | _ => false

/-- The mutable instance state of `_SessionManager`. -/
structure SMState where
  automaticSession : Session
  cookieUpdatedTimestamp : Option Int
deriving Repr, DecidableEq

def SMState.initial : SMState := ⟨Session.empty, none⟩

/-! ### Operations -/

/-- `setCookie(guid, acq, renewal)`: expiry is the earlier of
`acq + sessionExpirationMs()` and `renewal + sessionRenewalMs()`
(`NaN < x` is `false`, so a NaN acquisition expiry falls through to the
renewal branch); records `cookieUpdatedTimestamp = Now()`. -/
def setCookie (cfg : SessionConfig) (st : SMState) (guid : Option String)
    (acq renewal : Option Int) (now : Int) : SMState × List Effect :=
  let acquisitionExpiry := acq.map (· + cfg.sessionExpirationMs)
  let renewalExpiry := renewal.map (· + cfg.sessionRenewalMs)
  let lt : Bool := match acquisitionExpiry, renewalExpiry with
    | some a, some r => a < r
    | _, _ => false
  let cookieExpiry := if lt then acquisitionExpiry else renewalExpiry
  let value := joinPipe [renderIdField guid, renderNumField acq, renderNumField renewal]
  ({ st with cookieUpdatedTimestamp := some now },
   [Effect.cookieWrite (storageNamePrefix cfg) value cookieExpiry cfg.cookieDomain])

/-- `setStorage(guid, acq, renewal)`: writes the joined triple to
durable storage; touches no instance state. -/
def setStorage (cfg : SessionConfig) (guid : Option String)
    (acq renewal : Option Int) : List Effect :=
  [Effect.storageWrite (storageNamePrefix cfg)
    (joinPipe [renderIdField guid, renderNumField acq, renderNumField renewal])]

/-- `backup()`: persists the current automatic session verbatim. -/
def backup (cfg : SessionConfig) (st : SMState) : SMState × List Effect :=
  (st, setStorage cfg st.automaticSession.id st.automaticSession.acquisitionDate
        st.automaticSession.renewalDate)

/-- `renew()`: mints a new id, sets both dates to `Now()`, writes the
cookie, and logs a warning when local storage is unavailable. -/
def renew (cfg : SessionConfig) (st : SMState) (newId : String) (now : Int)
    (canUseLocalStorage : Bool) : SMState × List Effect :=
  let sess : Session := ⟨some newId, some now, some now⟩
  let p := setCookie cfg { st with automaticSession := sess }
      (some newId) (some now) (some now) now
  (p.1, p.2 ++ if ¬canUseLocalStorage then
      [Effect.logWarning "Browser does not support local storage. Session durations will be inaccurate."]
    else [])

/-- `initializeAutomaticSessionWithData(sessionData)`: split on `|`,
take field 0 as the id, coerce fields 1 and 2 through
`+new Date(+field)` with `> 0 ? · : 0` normalization, and warn when the
resulting renewal date is exactly `0`.

The source wraps the coercions in `try/catch` whose `catch` logs
`ErrorParsingAISessionCookie` at CRITICAL severity — but unary `+` on a
string and `Date` construction never throw in ECMAScript (a non-numeric
field yields `NaN`, embedded by `jsToNumber`/`jsDateValue` above), so
the catch branch is unreachable for string payloads and the embedding
is total with no critical log.

`parseDateField` is the coercion applied to each of fields 1 and 2:
`+new Date(+raw)` followed by the `> 0 ? · : 0` normalization. -/
def parseDateField (raw : String) : Int :=
  normalizePositive (jsDateValue (jsToNumber raw))

def initializeAutomaticSessionWithData (st : SMState) (sessionData : String) :
    SMState × List Effect :=
  let params := jsSplitPipe sessionData
  let s0 := st.automaticSession
  let s1 := if params.length > 0 then { s0 with id := some (params.getD 0 "") } else s0
  let s2 := if params.length > 1 then
      { s1 with acquisitionDate := some (parseDateField (params.getD 1 "")) }
    else s1
  let s3 := if params.length > 2 then
      { s2 with renewalDate := some (parseDateField (params.getD 2 "")) }
    else s2
  ({ st with automaticSession := s3 },
   if s3.renewalDate = some 0 then
     [Effect.logWarning "AI session renewal date is 0, session will be reset."]
   else [])

/-- `initializeAutomaticSession()`: parse the cookie when it is a truthy
string, else the durable-storage value when truthy; if no truthy id was
established, renew. -/
def initializeAutomaticSession (cfg : SessionConfig) (st : SMState)
    (cookieRead storageRead : Option String) (newId : String) (now : Int)
    (canUseLocalStorage : Bool) : SMState × List Effect :=
  let p :=
    if isTruthyStr cookieRead then
      initializeAutomaticSessionWithData st (cookieRead.getD "")
    else if isTruthyStr storageRead then
      initializeAutomaticSessionWithData st (storageRead.getD "")
    else (st, [])
  if ¬ isTruthyStr p.1.automaticSession.id then
    let q := renew cfg p.1 newId now canUseLocalStorage
    (q.1, p.2 ++ q.2)
  else p

/-- `update()`: lazily initialize when the id is falsy, classify expiry
against `Now()`, renew when either window is exceeded, else throttle the
keep-alive cookie write. -/
def update (cfg : SessionConfig) (st : SMState)
    (cookieRead storageRead : Option String) (newId : String) (now : Int)
    (canUseLocalStorage : Bool) : SMState × List Effect :=
  let p :=
    if ¬ isTruthyStr st.automaticSession.id then
      initializeAutomaticSession cfg st cookieRead storageRead newId now canUseLocalStorage
    else (st, [])
  let st1 := p.1
  let acquisitionExpired :=
    jsExpiredCheck now st1.automaticSession.acquisitionDate cfg.sessionExpirationMs
  let renewalExpired :=
    jsExpiredCheck now st1.automaticSession.renewalDate cfg.sessionRenewalMs
  if acquisitionExpired || renewalExpired then
    let q := renew cfg st1 newId now canUseLocalStorage
    (q.1, p.2 ++ q.2)
  else
    if jsFalsyNum st1.cookieUpdatedTimestamp ||
        jsExpiredCheck now st1.cookieUpdatedTimestamp cookieUpdateInterval then
      let sess := { st1.automaticSession with renewalDate := some now }
      let q := setCookie cfg { st1 with automaticSession := sess }
          sess.id sess.acquisitionDate sess.renewalDate now
      (q.1, p.2 ++ q.2)
    else (st1, p.2)

/-- The configuration produced by the constructor when no accessors are
supplied: both spans defaulted, no cookie domain, no name prefix. -/
def defaultConfig : SessionConfig := ⟨acquisitionSpan, renewalSpan, none, none⟩

/-- The documented `Session` invariant: the id is set iff both dates
are set. -/
def sessionInvariant (s : Session) : Prop :=
  s.id.isSome ↔ (s.acquisitionDate.isSome ∧ s.renewalDate.isSome)

instance (s : Session) : Decidable (sessionInvariant s) := by
  unfold sessionInvariant; infer_instance

/-! ### Lemmas about decimal rendering and `ToNumber` parsing -/

theorem toNat_ofNat_digit (k : Nat) (h : k < 10) : (Char.ofNat (48 + k)).toNat = 48 + k := by
  interval_cases k <;> decide

theorem isDigit_ofNat_digit (k : Nat) (h : k < 10) : (Char.ofNat (48 + k)).isDigit = true := by
  interval_cases k <;> decide

theorem natCharsAux_digits (fuel : Nat) : ∀ n, n < fuel →
    ∀ c ∈ natCharsAux fuel n, c.isDigit = true := by
  induction fuel with
  | zero => omega
  | succ fuel ih =>
    intro n hn c hc
    by_cases h10 : n < 10
    · simp only [natCharsAux, if_pos h10, List.mem_singleton] at hc
      exact hc ▸ isDigit_ofNat_digit n h10
    · simp only [natCharsAux, if_neg h10, List.mem_append, List.mem_singleton] at hc
      rcases hc with hc | hc
      · have hdiv : n / 10 < fuel := by
          have := Nat.div_lt_self (show 0 < n by omega) (show 1 < 10 by omega)
          omega
        exact ih (n / 10) hdiv c hc
      · exact hc ▸ isDigit_ofNat_digit _ (Nat.mod_lt _ (by omega))

theorem natChars_digits (n : Nat) : ∀ c ∈ natChars n, c.isDigit = true :=
  natCharsAux_digits (n + 1) n (by omega)

theorem natChars_ne_nil (n : Nat) : natChars n ≠ [] := by
  unfold natChars natCharsAux
  by_cases h10 : n < 10 <;> simp [h10]

theorem pipe_not_mem_natChars (n : Nat) : '|' ∉ natChars n := by
  intro h
  have := natChars_digits n _ h
  simp at this

theorem parseNatChars_append_digit (l : List Char) (c : Char) :
    parseNatChars (l ++ [c]) = parseNatChars l * 10 + (c.toNat - 48) := by
  simp [parseNatChars, List.foldl_append]

theorem natCharsAux_parse (fuel : Nat) : ∀ n, n < fuel →
    parseNatChars (natCharsAux fuel n) = n := by
  induction fuel with
  | zero => omega
  | succ fuel ih =>
    intro n hn
    by_cases h10 : n < 10
    · simp only [natCharsAux, if_pos h10]
      simp [parseNatChars, toNat_ofNat_digit n h10]
    · have hdiv : n / 10 < fuel := by
        have := Nat.div_lt_self (show 0 < n by omega) (show 1 < 10 by omega)
        omega
      simp only [natCharsAux, if_neg h10]
      rw [parseNatChars_append_digit, ih (n / 10) hdiv,
        toNat_ofNat_digit _ (Nat.mod_lt _ (by omega))]
      omega

theorem natChars_parse (n : Nat) : parseNatChars (natChars n) = n :=
  natCharsAux_parse (n + 1) n (by omega)

theorem pipe_not_mem_renderInt (n : Int) : '|' ∉ renderInt n := by
  unfold renderInt
  split
  · intro h
    rcases List.mem_cons.mp h with h | h
    · exact absurd h.symm (by decide)
    · exact pipe_not_mem_natChars _ h
  · exact pipe_not_mem_natChars _

theorem jsToNumber_renderPos (v : Int) (h : 0 < v) :
    jsToNumber (String.mk (renderInt v)) = some v := by
  have hneg : ¬ v < 0 := by omega
  unfold renderInt
  rw [if_neg hneg]
  rcases hchars : natChars v.natAbs with _ | ⟨c, cs⟩
  · exact absurd hchars (natChars_ne_nil _)
  · have hdig : ∀ x ∈ c :: cs, x.isDigit = true := by
      rw [← hchars]; exact natChars_digits _
    have hcd : c.isDigit = true := hdig c (by simp)
    have hcm : ¬ c = '-' := fun hh => by rw [hh] at hcd; simp at hcd
    have hcp : ¬ c = '+' := fun hh => by rw [hh] at hcd; simp at hcd
    show jsToNumber ⟨c :: cs⟩ = some v
    unfold jsToNumber
    simp only [if_neg hcm, if_neg hcp]
    rw [if_pos (by simpa using hdig)]
    rw [show parseNatChars (c :: cs) = v.natAbs from hchars ▸ natChars_parse v.natAbs]
    congr 1
    omega

theorem parseDateField_renderPos (v : Int) (h1 : 0 < v) (h2 : v ≤ 8640000000000000) :
    parseDateField (String.mk (renderInt v)) = v := by
  unfold parseDateField
  rw [jsToNumber_renderPos v h1]
  have hb : v.natAbs ≤ 8640000000000000 := by omega
  simp [jsDateValue, hb, normalizePositive, h1]

theorem jsSplitPipe_join3 (i a r : List Char)
    (hi : '|' ∉ i) (ha : '|' ∉ a) (hr : '|' ∉ r) :
    jsSplitPipe (joinPipe [i, a, r]) = [String.mk i, String.mk a, String.mk r] := by
  unfold jsSplitPipe joinPipe
  have hdata : (String.mk (List.intercalate ['|'] [i, a, r])).data
      = List.intercalate ['|'] [i, a, r] := rfl
  rw [hdata, List.splitOn_intercalate [i, a, r] '|' (by
      intro l hl
      simp only [List.mem_cons, List.not_mem_nil, or_false] at hl
      rcases hl with h | h | h <;> subst h <;> assumption)
    (by simp)]
  simp

/-! ### Structural lemmas about the operations -/

theorem setCookie_fst (cfg : SessionConfig) (st : SMState) (g : Option String)
    (a r : Option Int) (now : Int) :
    (setCookie cfg st g a r now).1 = { st with cookieUpdatedTimestamp := some now } := rfl

theorem renew_fst (cfg : SessionConfig) (st : SMState) (newId : String) (now : Int)
    (c : Bool) :
    (renew cfg st newId now c).1 = ⟨⟨some newId, some now, some now⟩, some now⟩ := rfl

theorem initializeAutomaticSession_id_truthy (cfg : SessionConfig) (st : SMState)
    (cr sr : Option String) (newId : String) (now : Int) (c : Bool)
    (hNew : newId ≠ "") :
    isTruthyStr ((initializeAutomaticSession cfg st cr sr newId now c).1.automaticSession.id)
      = true := by
  simp only [initializeAutomaticSession]
  set p := (if isTruthyStr cr then
        initializeAutomaticSessionWithData st (cr.getD "")
      else if isTruthyStr sr then
        initializeAutomaticSessionWithData st (sr.getD "")
      else (st, [])) with hp
  by_cases h : isTruthyStr p.1.automaticSession.id = true
  · simp [h]
  · have hf : isTruthyStr p.1.automaticSession.id = false := by
      cases hb : isTruthyStr p.1.automaticSession.id
      · rfl
      · exact absurd hb h
    simp only [hf, Bool.false_eq_true, not_false_eq_true, if_true]
    simp [renew_fst, isTruthyStr, hNew]

/-- C1: for every configuration and every state of the cookie and
durable-storage backends (and of the manager itself), after `update()`
returns, `automaticSession.id` is a non-empty string — assuming the
injected id generator honours its contract of returning a non-empty
unique id. -/
theorem update_session_id_nonempty (cfg : SessionConfig) (st : SMState)
    (cr sr : Option String) (newId : String) (now : Int) (canUseLS : Bool)
    (hNew : newId ≠ "") :
    isTruthyStr ((update cfg st cr sr newId now canUseLS).1.automaticSession.id) = true := by
  have hst1 : isTruthyStr ((if ¬ isTruthyStr st.automaticSession.id then
      initializeAutomaticSession cfg st cr sr newId now canUseLS
      else (st, [])).1.automaticSession.id) = true := by
    by_cases h0 : isTruthyStr st.automaticSession.id = true
    · simp [h0]
    · simpa [h0] using
        initializeAutomaticSession_id_truthy cfg st cr sr newId now canUseLS hNew
  simp only [update]
  generalize hgen : (if ¬ isTruthyStr st.automaticSession.id then
      initializeAutomaticSession cfg st cr sr newId now canUseLS
      else (st, [])) = p at hst1 ⊢
  split_ifs with h1 h2
  · simp [renew_fst, isTruthyStr, hNew]
  · simpa [setCookie_fst] using hst1
  · exact hst1

/-- Witness for C1 at a concrete input. -/
theorem update_session_id_nonempty_witness :
    isTruthyStr ((update defaultConfig SMState.initial none none "W1" 7 true).1.automaticSession.id)
      = true :=
  update_session_id_nonempty defaultConfig SMState.initial none none "W1" 7 true
    (by decide)

theorem parse_abc_1000_1000 (ts : Option Int) :
    initializeAutomaticSessionWithData ⟨⟨none, none, none⟩, ts⟩ "abc|1000|1000"
      = (⟨⟨some "abc", some 1000, some 1000⟩, ts⟩, []) := rfl

/-- C2: when the persisted cookie parses to id `"abc"` with
`acquisitionDate = renewalDate = 1000` and
`now = 1000 + sessionRenewalMs() + 1`, `update()` renews: the new id is
the generator's fresh id (distinct from `"abc"` by the generator's
uniqueness contract), both dates become `now`, and exactly one cookie
write happens — for every write-throttling state `ts`. -/
theorem update_renews_expired_session (cfg : SessionConfig) (ts : Option Int)
    (sr : Option String) (newId : String) (now : Int) (c : Bool)
    (hNew : newId ≠ "abc") (hnow : now = 1000 + cfg.sessionRenewalMs + 1) :
    (update cfg ⟨Session.empty, ts⟩ (some "abc|1000|1000") sr newId now c).1
        = ⟨⟨some newId, some now, some now⟩, some now⟩
    ∧ (update cfg ⟨Session.empty, ts⟩ (some "abc|1000|1000") sr newId now c).1.automaticSession.id
        ≠ some "abc"
    ∧ (update cfg ⟨Session.empty, ts⟩ (some "abc|1000|1000") sr newId now c).2.countP
        Effect.isCookieWrite = 1 := by
  subst hnow
  have hexp : jsExpiredCheck (1000 + cfg.sessionRenewalMs + 1) (some 1000)
      cfg.sessionRenewalMs = true := by
    simp only [jsExpiredCheck, decide_eq_true_eq]
    omega
  refine ⟨?_, ?_, ?_⟩ <;> cases c <;>
    simp [update, initializeAutomaticSession, parse_abc_1000_1000, Session.empty,
      isTruthyStr, hexp, renew, setCookie, hNew, Effect.isCookieWrite,
      List.countP_append, List.countP_cons]

/-- Witness for C2 at a concrete input. -/
theorem update_renews_expired_session_witness :
    (update defaultConfig ⟨Session.empty, some 12345⟩ (some "abc|1000|1000") none
        "xyz" 1801001 true).1
      = ⟨⟨some "xyz", some 1801001, some 1801001⟩, some 1801001⟩ :=
  (update_renews_expired_session defaultConfig (some 12345) none "xyz" 1801001 true
    (by decide) (by decide)).1

/-- C3 (amended): for a session within both expiry windows, an
`update()` within `cookieUpdateInterval` of a last cookie write recorded
at a *nonzero* timestamp is a complete no-op (renewal date unchanged, no
effect of any kind); an `update()` where no write timestamp exists, the
recorded timestamp is `0` (which JavaScript falsiness treats as absent),
or more than `cookieUpdateInterval` has elapsed, sets
`renewalDate = now` and performs exactly one cookie write. -/
theorem update_throttles_cookie_writes (cfg : SessionConfig) (st : SMState)
    (cr sr : Option String) (nid : String) (now : Int) (c : Bool)
    (i : String) (a r : Int)
    (hsess : st.automaticSession = ⟨some i, some a, some r⟩) (hi : i ≠ "")
    (hacq : now - a ≤ cfg.sessionExpirationMs)
    (hren : now - r ≤ cfg.sessionRenewalMs) :
    (∀ t : Int, st.cookieUpdatedTimestamp = some t → t ≠ 0 →
        now - t ≤ cookieUpdateInterval →
        update cfg st cr sr nid now c = (st, []))
    ∧ ((st.cookieUpdatedTimestamp = none ∨ st.cookieUpdatedTimestamp = some 0 ∨
        (∃ t, st.cookieUpdatedTimestamp = some t ∧ now - t > cookieUpdateInterval)) →
        (update cfg st cr sr nid now c).1.automaticSession.renewalDate = some now
        ∧ (update cfg st cr sr nid now c).2.countP Effect.isCookieWrite = 1) := by
  have hid : isTruthyStr st.automaticSession.id = true := by
    rw [hsess]; simp [isTruthyStr, hi]
  have hA : jsExpiredCheck now st.automaticSession.acquisitionDate
      cfg.sessionExpirationMs = false := by
    rw [hsess]; simp only [jsExpiredCheck, decide_eq_false_iff_not]; omega
  have hR : jsExpiredCheck now st.automaticSession.renewalDate
      cfg.sessionRenewalMs = false := by
    rw [hsess]; simp only [jsExpiredCheck, decide_eq_false_iff_not]; omega
  constructor
  · intro t ht ht0 htle
    have h1 : jsFalsyNum st.cookieUpdatedTimestamp = false := by
      rw [ht]; simp [jsFalsyNum, ht0]
    have h2 : jsExpiredCheck now st.cookieUpdatedTimestamp cookieUpdateInterval = false := by
      rw [ht]; simp only [jsExpiredCheck, decide_eq_false_iff_not]; omega
    simp [update, hid, hA, hR, h1, h2]
  · intro hcase
    have hw : (jsFalsyNum st.cookieUpdatedTimestamp ||
        jsExpiredCheck now st.cookieUpdatedTimestamp cookieUpdateInterval) = true := by
      rcases hcase with h | h | ⟨t, ht, hgt⟩
      · simp [h, jsFalsyNum]
      · simp [h, jsFalsyNum]
      · have : jsExpiredCheck now (some t) cookieUpdateInterval = true := by
          simp only [jsExpiredCheck, decide_eq_true_eq]; omega
        simp [ht, this]
    refine ⟨?_, ?_⟩ <;>
      simp [update, hid, hA, hR, hw, setCookie, Effect.isCookieWrite, List.countP_cons]

/-- Counterexample to C3 as stated: the write-throttle reference is the
JavaScript-falsy `cookieUpdatedTimestamp`, so a last write recorded at
timestamp `0` does not throttle: with the session within both windows
and `now = 1` (well within `cookieUpdateInterval` of the last write),
`update()` still changes `renewalDate` and writes the cookie. -/
theorem update_throttle_zero_timestamp_counterexample :
    (1 : Int) - 0 ≤ cookieUpdateInterval
    ∧ (update defaultConfig ⟨⟨some "abc", some 0, some 0⟩, some 0⟩ none none
        "NEWID" 1 true).2.countP Effect.isCookieWrite = 1
    ∧ (update defaultConfig ⟨⟨some "abc", some 0, some 0⟩, some 0⟩ none none
        "NEWID" 1 true).1.automaticSession.renewalDate = some 1 := by decide

/-- Witness for amended C3 at a concrete input. -/
theorem update_throttles_cookie_writes_witness :
    update defaultConfig ⟨⟨some "abc", some 1000, some 1000⟩, some 900⟩ none none
        "N" 1000 true
      = (⟨⟨some "abc", some 1000, some 1000⟩, some 900⟩, []) :=
  (update_throttles_cookie_writes defaultConfig
      ⟨⟨some "abc", some 1000, some 1000⟩, some 900⟩ none none "N" 1000 true
      "abc" 1000 1000 rfl (by decide) (by decide) (by decide)).1
    900 rfl (by decide) (by decide)

/-- Counterexample to C4 as stated: parsing the malformed payload
`"abc|notanumber|2000"` produces *no* log entry at all — in particular
no critical one.  The critical log lives only in the catch branch, and
ECMAScript numeric coercion of a string never throws (`+"notanumber"`
is `NaN`), so the branch is dead. -/
theorem parse_malformed_no_critical_counterexample :
    (initializeAutomaticSessionWithData SMState.initial "abc|notanumber|2000").2 = []
    ∧ (initializeAutomaticSessionWithData SMState.initial
        "abc|notanumber|2000").2.countP Effect.isCritical = 0 := by decide

/-- C4 (amended): parsing `"abc|notanumber|2000"` raises nothing to the
caller (the coercions are total), normalizes `acquisitionDate` to `0`,
sets `renewalDate` to `2000`, and produces no log entry — the critical
parse-error log is never emitted because the catch branch guarding it is
unreachable. -/
theorem parse_malformed_payload (st : SMState) :
    initializeAutomaticSessionWithData st "abc|notanumber|2000"
      = (⟨⟨some "abc", some 0, some 2000⟩, st.cookieUpdatedTimestamp⟩, []) := rfl

/-- C10: for every manager state and every string payload,
`initializeAutomaticSessionWithData` is total and emits no critical log
entry (the catch branch is unreachable: ECMAScript `ToNumber` and `Date`
construction never throw on strings); and for
`"abc|notanumber|2000"` the non-numeric field 1 does not abort parsing
of field 2 — `renewalDate` is still coerced to `2000` while
`acquisitionDate` normalizes to `0`. -/
theorem parse_total_never_critical :
    (∀ (st : SMState) (payload : String),
        (initializeAutomaticSessionWithData st payload).2.countP Effect.isCritical = 0)
    ∧ (initializeAutomaticSessionWithData SMState.initial
        "abc|notanumber|2000").1.automaticSession.renewalDate = some 2000
    ∧ (initializeAutomaticSessionWithData SMState.initial
        "abc|notanumber|2000").1.automaticSession.acquisitionDate = some 0 := by
  refine ⟨?_, by decide, by decide⟩
  intro st payload
  simp only [initializeAutomaticSessionWithData]
  split_ifs <;> simp [Effect.isCritical, List.countP_cons, List.countP_nil]

/-- C5 (amended): round-trip holds for every session whose id is a
non-empty `|`-free string and whose `acquisitionDate`/`renewalDate` are
positive integers within the JavaScript `Date` range
(≤ 8 640 000 000 000 000 ms): serializing the triple as
`backup()`/`setStorage` does and parsing the result restores the id and
both dates exactly.  Beyond the `Date` range the `+new Date(·)`
re-extraction yields `NaN` and the parse normalizes the field to `0`
(see the counterexample). -/
theorem serialize_parse_roundtrip (st : SMState) (i : String) (a r : Int)
    (_hi : i ≠ "") (hp : '|' ∉ i.data)
    (ha1 : 0 < a) (ha2 : a ≤ 8640000000000000)
    (hr1 : 0 < r) (hr2 : r ≤ 8640000000000000) :
    (initializeAutomaticSessionWithData st
        (joinPipe [renderIdField (some i), renderNumField (some a),
          renderNumField (some r)])).1.automaticSession
      = ⟨some i, some a, some r⟩ := by
  simp only [initializeAutomaticSessionWithData]
  rw [show jsSplitPipe (joinPipe [renderIdField (some i), renderNumField (some a),
        renderNumField (some r)])
      = [String.mk i.data, String.mk (renderInt a), String.mk (renderInt r)] from
    jsSplitPipe_join3 i.data (renderInt a) (renderInt r) hp
      (pipe_not_mem_renderInt a) (pipe_not_mem_renderInt r)]
  simp [parseDateField_renderPos a ha1 ha2, parseDateField_renderPos r hr1 hr2,
    show String.mk i.data = i from rfl]

/-- Counterexample to C5 as stated: the positive integer
`8640000000000001` exceeds the maximum JavaScript `Date` timestamp, so
serializing a session holding it and parsing the result yields
`acquisitionDate = 0` instead of the original value. -/
theorem serialize_parse_roundtrip_counterexample :
    (initializeAutomaticSessionWithData SMState.initial
        (joinPipe [renderIdField (some "abc"), renderNumField (some 8640000000000001),
          renderNumField (some 2000)])).1.automaticSession.acquisitionDate
      = some 0
    ∧ (0 : Int) ≠ 8640000000000001 := by decide

/-- Witness for amended C5 at a concrete input. -/
theorem serialize_parse_roundtrip_witness :
    (initializeAutomaticSessionWithData SMState.initial
        (joinPipe [renderIdField (some "a"), renderNumField (some 1),
          renderNumField (some 1)])).1.automaticSession
      = ⟨some "a", some 1, some 1⟩ :=
  serialize_parse_roundtrip SMState.initial "a" 1 1 (by decide) (by decide)
    (by decide) (by decide) (by decide) (by decide)

/-- C6: every cookie write with numeric acquisition date `acq` and
renewal date `renewal` carries an `expires=` timestamp equal to
`min (acq + sessionExpirationMs()) (renewal + sessionRenewalMs())`
(rendered as an absolute UTC date string on the wire). -/
theorem setCookie_expiry_is_min (cfg : SessionConfig) (st : SMState)
    (guid : Option String) (acq renewal now : Int) :
    (setCookie cfg st guid (some acq) (some renewal) now).2
      = [Effect.cookieWrite (storageNamePrefix cfg)
          (joinPipe [renderIdField guid, renderNumField (some acq),
            renderNumField (some renewal)])
          (some (min (acq + cfg.sessionExpirationMs) (renewal + cfg.sessionRenewalMs)))
          cfg.cookieDomain] := by
  simp only [setCookie, Option.map_some']
  split_ifs with h
  · rw [min_eq_left (le_of_lt (of_decide_eq_true h))]
  · rw [min_eq_right (le_of_not_lt (fun hlt => h (decide_eq_true hlt)))]

/-- C7: `backup()` writes exactly the current
`id|acquisitionDate|renewalDate` triple to durable storage and changes
nothing else — the session fields, the throttle reference
`cookieUpdatedTimestamp`, and the cookie are all untouched — for every
in-memory state, expired or uninitialized included. -/
theorem backup_writes_current_triple (cfg : SessionConfig) (st : SMState) :
    backup cfg st
      = (st, [Effect.storageWrite (storageNamePrefix cfg)
          (joinPipe [renderIdField st.automaticSession.id,
            renderNumField st.automaticSession.acquisitionDate,
            renderNumField st.automaticSession.renewalDate])]) := rfl

theorem isSome_of_truthy (o : Option String) (h : isTruthyStr o = true) :
    o.isSome = true := by
  cases o <;> simp_all [isTruthyStr]

theorem initializeAutomaticSessionWithData_three_fields (st : SMState) (s : String)
    (h3 : (jsSplitPipe s).length > 2) :
    (initializeAutomaticSessionWithData st s).1.automaticSession
      = ⟨some ((jsSplitPipe s).getD 0 ""),
          some (parseDateField ((jsSplitPipe s).getD 1 "")),
          some (parseDateField ((jsSplitPipe s).getD 2 ""))⟩ := by
  have l0 : (jsSplitPipe s).length > 0 := by omega
  have l1 : (jsSplitPipe s).length > 1 := by omega
  simp [initializeAutomaticSessionWithData, l0, l1, h3]

theorem initializeAutomaticSession_inv (cfg : SessionConfig) (st : SMState)
    (cr sr : Option String) (nid : String) (now : Int) (c : Bool)
    (hinv : sessionInvariant st.automaticSession)
    (hcr : ∀ s, cr = some s → s ≠ "" → (jsSplitPipe s).length > 2)
    (hsr : ∀ s, sr = some s → s ≠ "" → (jsSplitPipe s).length > 2) :
    sessionInvariant ((initializeAutomaticSession cfg st cr sr nid now c).1.automaticSession)
    ∧ ((initializeAutomaticSession cfg st cr sr nid now c).1.automaticSession.id).isSome
        = true := by
  have key : ∀ (p : SMState × List Effect), sessionInvariant p.1.automaticSession →
      sessionInvariant ((if ¬ isTruthyStr p.1.automaticSession.id = true then
          ((renew cfg p.1 nid now c).1, p.2 ++ (renew cfg p.1 nid now c).2)
        else p).1.automaticSession)
      ∧ (((if ¬ isTruthyStr p.1.automaticSession.id = true then
          ((renew cfg p.1 nid now c).1, p.2 ++ (renew cfg p.1 nid now c).2)
        else p).1.automaticSession.id).isSome = true) := by
    intro p hp
    by_cases h : isTruthyStr p.1.automaticSession.id = true
    · simpa [h] using ⟨hp, isSome_of_truthy _ h⟩
    · simp [h, renew_fst, sessionInvariant]
  have hinvp : sessionInvariant ((if isTruthyStr cr then
      initializeAutomaticSessionWithData st (cr.getD "")
    else if isTruthyStr sr then
      initializeAutomaticSessionWithData st (sr.getD "")
    else (st, [])).1.automaticSession) := by
    by_cases hc : isTruthyStr cr = true
    · rcases cr with _ | s
      · simp [isTruthyStr] at hc
      · have hne : s ≠ "" := by simpa [isTruthyStr] using hc
        rw [if_pos hc]
        rw [show (some s).getD "" = s from rfl,
          initializeAutomaticSessionWithData_three_fields st s (hcr s rfl hne)]
        simp [sessionInvariant]
    · rw [if_neg hc]
      by_cases hs : isTruthyStr sr = true
      · rcases sr with _ | s
        · simp [isTruthyStr] at hs
        · have hne : s ≠ "" := by simpa [isTruthyStr] using hs
          rw [if_pos hs]
          rw [show (some s).getD "" = s from rfl,
            initializeAutomaticSessionWithData_three_fields st s (hsr s rfl hne)]
          simp [sessionInvariant]
      · rw [if_neg hs]
        exact hinv
  simp only [initializeAutomaticSession]
  exact key _ hinvp

theorem update_fst_characterization (cfg : SessionConfig) (st : SMState)
    (cr sr : Option String) (nid : String) (now : Int) (c : Bool) :
    ∃ st1 : SMState,
      st1 = (if ¬ isTruthyStr st.automaticSession.id then
          (initializeAutomaticSession cfg st cr sr nid now c).1 else st)
      ∧ ((update cfg st cr sr nid now c).1 = ⟨⟨some nid, some now, some now⟩, some now⟩
        ∨ (update cfg st cr sr nid now c).1
            = ⟨{ st1.automaticSession with renewalDate := some now }, some now⟩
        ∨ (update cfg st cr sr nid now c).1 = st1) := by
  refine ⟨_, rfl, ?_⟩
  simp only [update]
  rw [show (if ¬ isTruthyStr st.automaticSession.id = true then
        initializeAutomaticSession cfg st cr sr nid now c else (st, [])).1
      = (if ¬ isTruthyStr st.automaticSession.id = true then
        (initializeAutomaticSession cfg st cr sr nid now c).1 else st) by
    split <;> rfl]
  generalize (if ¬ isTruthyStr st.automaticSession.id = true then
      (initializeAutomaticSession cfg st cr sr nid now c).1 else st) = st1
  split_ifs <;>
    first
      | exact Or.inl (by rw [renew_fst])
      | exact Or.inr (Or.inl (by rw [setCookie_fst]))
      | exact Or.inr (Or.inr rfl)

/-- Counterexample to C8 as stated: parsing the one-field payload
`"abc"` (here also reached through a full `update()` against a cookie
backend holding `"abc"`) sets the id but leaves `acquisitionDate`
unset, breaking the id-iff-dates invariant that held beforehand. -/
theorem session_invariant_counterexample :
    sessionInvariant SMState.initial.automaticSession
    ∧ ¬ sessionInvariant
        ((initializeAutomaticSessionWithData SMState.initial "abc").1.automaticSession)
    ∧ ¬ sessionInvariant
        ((update defaultConfig SMState.initial (some "abc") none
          "NEWID" 5 true).1.automaticSession) := by decide

/-- C8 (amended): the id-iff-dates invariant is established by parsing
any payload of at least three fields and by `renew()`, is preserved by
`backup()`, and is preserved by `update()` whenever every truthy payload
offered by the backends has at least three fields; a payload with fewer
fields can set the id while leaving a date unset (see the
counterexample). -/
theorem session_invariant_amended :
    (∀ (st : SMState) (s : String), (jsSplitPipe s).length > 2 →
        sessionInvariant ((initializeAutomaticSessionWithData st s).1.automaticSession))
    ∧ (∀ (cfg : SessionConfig) (st : SMState) (nid : String) (now : Int) (c : Bool),
        sessionInvariant ((renew cfg st nid now c).1.automaticSession))
    ∧ (∀ (cfg : SessionConfig) (st : SMState), sessionInvariant st.automaticSession →
        sessionInvariant ((backup cfg st).1.automaticSession))
    ∧ (∀ (cfg : SessionConfig) (st : SMState) (cr sr : Option String) (nid : String)
        (now : Int) (c : Bool),
        sessionInvariant st.automaticSession →
        (∀ s, cr = some s → s ≠ "" → (jsSplitPipe s).length > 2) →
        (∀ s, sr = some s → s ≠ "" → (jsSplitPipe s).length > 2) →
        sessionInvariant ((update cfg st cr sr nid now c).1.automaticSession)) := by
  refine ⟨?_, ?_, ?_, ?_⟩
  · intro st s h3
    rw [initializeAutomaticSessionWithData_three_fields st s h3]
    simp [sessionInvariant]
  · intro cfg st nid now c
    rw [renew_fst]
    simp [sessionInvariant]
  · intro cfg st h
    exact h
  · intro cfg st cr sr nid now c hinv hcr hsr
    obtain ⟨st1, hst1, hdisj⟩ := update_fst_characterization cfg st cr sr nid now c
    have h1 : sessionInvariant st1.automaticSession
        ∧ st1.automaticSession.id.isSome = true := by
      rw [hst1]
      by_cases h0 : isTruthyStr st.automaticSession.id = true
      · simpa [h0] using ⟨hinv, isSome_of_truthy _ h0⟩
      · simpa [h0] using
          initializeAutomaticSession_inv cfg st cr sr nid now c hinv hcr hsr
    have hacq : st1.automaticSession.acquisitionDate.isSome = true :=
      ((h1.1.mp (by simpa using h1.2))).1
    rcases hdisj with h | h | h <;> rw [h]
    · simp [sessionInvariant]
    · simp only [sessionInvariant] at *
      simp [h1.2, hacq]
    · exact h1.1

/-- Witness for amended C8 at a concrete input. -/
theorem session_invariant_amended_witness :
    sessionInvariant ((update defaultConfig SMState.initial (some "a|1|2") none
        "N" 5 true).1.automaticSession) :=
  session_invariant_amended.2.2.2 defaultConfig SMState.initial (some "a|1|2") none
    "N" 5 true (by decide)
    (by intro s hs h
        injection hs with h2
        subst h2
        decide)
    (by intro s hs h
        exact Option.noConfusion hs)

/-- Counterexample to C9 as stated: with `renewalDate = 0` but
`now = 0` (≤ `sessionRenewalMs()`), the expiry computation
`now - 0 > sessionRenewalMs()` is false, so `update()` does *not*
classify the session as renewal-expired and performs no renewal — the
state is returned unchanged and the id is not re-minted. -/
theorem update_zero_renewal_date_counterexample :
    update defaultConfig ⟨⟨some "abc", some 0, some 0⟩, some 5⟩ none none "NEWID" 0 true
      = (⟨⟨some "abc", some 0, some 0⟩, some 5⟩, [])
    ∧ jsExpiredCheck 0 (some 0) defaultConfig.sessionRenewalMs = false := by decide

/-- C9 (amended): for every state with a truthy id and
`renewalDate = 0`, an `update()` at any `now > sessionRenewalMs()`
classifies the session as renewal-expired (`now - 0 > sessionRenewalMs()`)
and renews: the generator's fresh id is minted, both dates become `now`,
and one cookie write happens.  (For `now ≤ sessionRenewalMs()` the zero
timestamp is not classified as expired — see the counterexample.) -/
theorem update_renews_zero_renewal_date (cfg : SessionConfig) (st : SMState)
    (cr sr : Option String) (nid : String) (now : Int) (c : Bool) (i : String)
    (hid : st.automaticSession.id = some i) (hi : i ≠ "")
    (hren : st.automaticSession.renewalDate = some 0)
    (hnow : now > cfg.sessionRenewalMs) :
    (update cfg st cr sr nid now c).1 = ⟨⟨some nid, some now, some now⟩, some now⟩
    ∧ (update cfg st cr sr nid now c).2.countP Effect.isCookieWrite = 1 := by
  have htruthy : isTruthyStr st.automaticSession.id = true := by
    rw [hid]; simp [isTruthyStr, hi]
  have hexp : jsExpiredCheck now st.automaticSession.renewalDate
      cfg.sessionRenewalMs = true := by
    rw [hren]; simp only [jsExpiredCheck, decide_eq_true_eq]; omega
  refine ⟨?_, ?_⟩ <;> cases c <;>
    simp [update, htruthy, hexp, renew, setCookie, Effect.isCookieWrite,
      List.countP_cons, List.countP_append]

/-- Witness for amended C9 at a concrete input. -/
theorem update_renews_zero_renewal_date_witness :
    (update defaultConfig ⟨⟨some "abc", some 7, some 0⟩, some 5⟩ none none
        "N9" 1800001 true).1
      = ⟨⟨some "N9", some 1800001, some 1800001⟩, some 1800001⟩ :=
  (update_renews_zero_renewal_date defaultConfig ⟨⟨some "abc", some 7, some 0⟩, some 5⟩
    none none "N9" 1800001 true "abc" rfl (by decide) rfl (by decide)).1

end AISession
